import Mathlib

/-!
Verification of the FeeEstimator core of the wearedood/web3 repository.

The repository's real logic is a gas-fee tiering computation and a builder
activity / eligibility heuristic.  The source functions embedded here are:

* `BaseGasOptimizer.getOptimalGas` (src/unnamed/part_001, lines 257-282):
  recommended tiers computed from the observed fee data with BigInt
  arithmetic, `slow = x * 90n / 100n`, `standard = x`, `fast = x * 110n / 100n`
  applied to both `maxFeePerGas` and `maxPriorityFeePerGas`.
* `BaseDeFiUtils.getOptimalGasFees` (src/base-builder-utilities.js, 87-101):
  `standard = gasPrice`, `fast = gasPrice * 110n / 100n`,
  `instant = gasPrice * 125n / 100n`.
* `BaseIntegration.calculateActivityScore` (src/BaseIntegration.js, 199-212):
  `Math.min(contracts * 50 + (wallet ? 10 : 0) + 20, 1000)`.
* `BaseAnalytics.checkRewardsEligibility` (src/base-builder-utilities.js,
  159-180): three boolean predicates and their conjunction.
* `BaseBuilderTracker.getContractsDeployed` (src/base-builder-utilities.js,
  70-74): `Math.floor(Math.random() * 10) + 1`, with the random draw made an
  explicit argument `r ∈ [0, 1)`.

The spec re-specifies this logic as a standalone FeeEstimator with two
operations, `computeFeeSchedule` and `computeEligibility`, that do not appear
verbatim in the source (the source has no input validation and fixed
percentages); those two are modelled from the spec's words and related to the
source embeddings where the formulas coincide.

JavaScript numeric notes reflected in the embedding: BigInt division
truncates toward zero, which on non-negative operands is the floor; the
multiplier of the spec is a decimal, modelled as a rational, with
`floor (amount * ratio)` as the tier arithmetic.
-/

/-- A fee observation: `baseFee` plus an optional `priorityFee` (absence
encoded as 0), in the smallest fee-denominated unit.  Negative values are
representable so that the spec's input validation is expressible. -/
structure FeeObservation where
  baseFee : Int
  priorityFee : Int
deriving Repr, DecidableEq

/-- One tier of a fee schedule: a fee cap and a priority-fee cap, both
smallest-unit integers. -/
structure FeeTier where
  feeCap : Int
  priorityCap : Int
deriving Repr, DecidableEq

/-- The three-tier output of the fee schedule computation. -/
structure FeeSchedule where
  slow : FeeTier
  standard : FeeTier
  fast : FeeTier
deriving Repr, DecidableEq

/-- The error taxonomy of the spec: a single kind, `InvalidInput`. -/
inductive FeeError where
  | invalidInput
deriving Repr, DecidableEq

/-- Tier arithmetic: multiply a smallest-unit amount by a rational ratio and
take the floor.  For the non-negative operands that pass validation this is
exactly the truncation toward zero of the source's BigInt arithmetic
(`x * 90n / 100n` and the like). -/
def tierOf (amount : Int) (ratio : ℚ) : Int :=
  Int.floor ((amount : ℚ) * ratio)

/-- Modelled from the spec: `computeFeeSchedule` of the FeeEstimator
component, which is missing from src/ (the source analogues are
`BaseGasOptimizer.getOptimalGas`, with fixed tiers 90/100/110, and
`BaseDeFiUtils.getOptimalGasFees`, with tiers 100/110/125 and no validation).
Fails with `InvalidInput` on a negative fee observation or a multiplier that
is not greater than 1; otherwise `slow = floor (fee * 0.90)`,
`standard = fee`, `fast = floor (fee * fastMultiplier)`, applied to the base
fee and the priority fee independently. -/
def computeFeeSchedule (obs : FeeObservation) (fastMultiplier : ℚ) :
    Except FeeError FeeSchedule :=
  if obs.baseFee < 0 ∨ obs.priorityFee < 0 then
    .error .invalidInput
  else if fastMultiplier ≤ 1 then
    .error .invalidInput
  else
    .ok
      { slow := ⟨tierOf obs.baseFee (9 / 10), tierOf obs.priorityFee (9 / 10)⟩
        standard := ⟨obs.baseFee, obs.priorityFee⟩
        fast := ⟨tierOf obs.baseFee fastMultiplier,
                 tierOf obs.priorityFee fastMultiplier⟩ }

/-- A builder activity snapshot, as the spec's `ActivitySnapshot` plus the
explicit `walletInitialized` input boolean.  Integer fields are `Int` so that
the negative inputs the validation rejects are representable; `balance` is a
rational, the decimal domain in which the source compares
`parseFloat(balance) >= 0.01`. -/
structure ActivitySnapshot where
  transactionCount : Int
  deployedContractCount : Int
  balance : ℚ
  walletInitialized : Bool
deriving Repr, DecidableEq

/-- Threshold configuration of `computeEligibility`; the spec's defaults are
`minTx = 10`, `minContracts = 1`, `minBalance = 0.01`. -/
structure Thresholds where
  minTx : Int
  minContracts : Int
  minBalance : ℚ
deriving Repr, DecidableEq

/-- The spec's default thresholds. -/
def defaultThresholds : Thresholds :=
  ⟨10, 1, 1 / 100⟩

/-- Output of the eligibility computation: the three predicates, their
conjunction, and the bounded activity score. -/
structure EligibilityResult where
  hasMinimumActivity : Bool
  hasDeployedContracts : Bool
  hasMinimumBalance : Bool
  overallEligible : Bool
  activityScore : Int
deriving Repr, DecidableEq

/-- Modelled from the spec: `computeEligibility` of the FeeEstimator
component, which is missing from src/ (the source analogues are
`BaseAnalytics.checkRewardsEligibility`, which performs no validation and
hard-codes the default thresholds, and
`BaseIntegration.calculateActivityScore` for the score formula).
Fails with `InvalidInput` when a snapshot field is negative; otherwise
returns the three threshold predicates, their conjunction, and
`min 1000 (deployedContractCount * 50 + (walletInitialized ? 10 : 0) + 20)`. -/
def computeEligibility (s : ActivitySnapshot) (t : Thresholds) :
    Except FeeError EligibilityResult :=
  if s.transactionCount < 0 ∨ s.deployedContractCount < 0 ∨ s.balance < 0 then
    .error .invalidInput
  else
    .ok
      { hasMinimumActivity := decide (t.minTx ≤ s.transactionCount)
        hasDeployedContracts := decide (t.minContracts ≤ s.deployedContractCount)
        hasMinimumBalance := decide (t.minBalance ≤ s.balance)
        overallEligible := decide (t.minTx ≤ s.transactionCount)
          && decide (t.minContracts ≤ s.deployedContractCount)
          && decide (t.minBalance ≤ s.balance)
        activityScore :=
          min 1000 (s.deployedContractCount * 50
            + (if s.walletInitialized then 10 else 0) + 20) }

/-- Embeds `BaseIntegration.calculateActivityScore`
(src/BaseIntegration.js, lines 199-212): `score = this.contracts.size * 50`,
plus 10 when a wallet is initialized, plus 20, then `Math.min(score, 1000)`. -/
def calculateActivityScore (contractsSize : Nat) (walletInitialized : Bool) : Nat :=
  min (contractsSize * 50 + (if walletInitialized then 10 else 0) + 20) 1000

/-- The builder metrics assembled by `BaseBuilderTracker.getBuilderMetrics`
and consumed by `BaseAnalytics.checkRewardsEligibility`: the transaction
count, the contracts-deployed count, and the decimal balance the source
obtains with `parseFloat(formatEther(balance))`. -/
structure BuilderMetrics where
  transactionCount : Nat
  contractsDeployed : Nat
  balance : ℚ
deriving Repr, DecidableEq

/-- The eligibility record built by `BaseAnalytics.checkRewardsEligibility`. -/
structure SourceEligibility where
  hasMinimumActivity : Bool
  hasDeployedContracts : Bool
  hasMinimumBalance : Bool
  overallEligible : Bool
deriving Repr, DecidableEq

/-- Embeds `BaseAnalytics.checkRewardsEligibility`
(src/base-builder-utilities.js, lines 159-180):
`hasMinimumActivity = metrics.transactionCount >= 10`,
`hasDeployedContracts = metrics.contractsDeployed > 0`,
`hasMinimumBalance = parseFloat(metrics.balance) >= 0.01`, and
`overallEligible` reassigned to the conjunction of the three. -/
def checkRewardsEligibility (m : BuilderMetrics) : SourceEligibility :=
  { hasMinimumActivity := decide (10 ≤ m.transactionCount)
    hasDeployedContracts := decide (0 < m.contractsDeployed)
    hasMinimumBalance := decide ((1 : ℚ) / 100 ≤ m.balance)
    overallEligible := decide (10 ≤ m.transactionCount)
      && decide (0 < m.contractsDeployed)
      && decide ((1 : ℚ) / 100 ≤ m.balance) }

/-- Embeds `BaseBuilderTracker.getContractsDeployed`
(src/base-builder-utilities.js, lines 70-74):
`Math.floor(Math.random() * 10) + 1`, with the draw of `Math.random()`
passed explicitly as a rational `r` (the host guarantees `0 ≤ r < 1`). -/
def getContractsDeployed (r : ℚ) : Nat :=
  (Int.floor (r * 10)).toNat + 1

/-- One tier of `BaseGasOptimizer.getOptimalGas`: the two EIP-1559 caps. -/
structure GasTier where
  maxFeePerGas : Nat
  maxPriorityFeePerGas : Nat
deriving Repr, DecidableEq

/-- The `recommended` record of `BaseGasOptimizer.getOptimalGas`. -/
structure GasRecommendation where
  slow : GasTier
  standard : GasTier
  fast : GasTier
deriving Repr, DecidableEq

/-- Embeds the `recommended` tiers of `BaseGasOptimizer.getOptimalGas`
(src/unnamed/part_001, lines 257-282): BigInt `x * 90n / 100n`, `x`,
`x * 110n / 100n`, on both fee fields.  The fee-data values are the
non-negative BigInts the provider returns, so `Nat` with truncating
division matches the BigInt semantics. -/
def getOptimalGasRecommended (maxFeePerGas maxPriorityFeePerGas : Nat) :
    GasRecommendation :=
  { slow := ⟨maxFeePerGas * 90 / 100, maxPriorityFeePerGas * 90 / 100⟩
    standard := ⟨maxFeePerGas, maxPriorityFeePerGas⟩
    fast := ⟨maxFeePerGas * 110 / 100, maxPriorityFeePerGas * 110 / 100⟩ }

/-- The record returned by `BaseDeFiUtils.getOptimalGasFees`. -/
structure GasFees where
  standard : Nat
  fast : Nat
  instant : Nat
deriving Repr, DecidableEq

/-- Embeds `BaseDeFiUtils.getOptimalGasFees`
(src/base-builder-utilities.js, lines 87-101): `standard = gasPrice`,
`fast = gasPrice * 110n / 100n`, `instant = gasPrice * 125n / 100n`. -/
def getOptimalGasFees (gasPrice : Nat) : GasFees :=
  ⟨gasPrice, gasPrice * 110 / 100, gasPrice * 125 / 100⟩

/-- An explicit world state (a random seed and a call counter), threaded
through the pure operations to express the absence of side effects and of
hidden state. -/
structure World where
  rngSeed : ℚ
  callCount : Nat
deriving Repr, DecidableEq

/-- `computeFeeSchedule` run against an explicit world: the world is
neither read nor written. -/
def computeFeeScheduleRun (obs : FeeObservation) (m : ℚ) (w : World) :
    (Except FeeError FeeSchedule) × World :=
  (computeFeeSchedule obs m, w)

/-- `computeEligibility` run against an explicit world: the world is
neither read nor written. -/
def computeEligibilityRun (s : ActivitySnapshot) (t : Thresholds) (w : World) :
    (Except FeeError EligibilityResult) × World :=
  (computeEligibility s t, w)

/-! ## Helper lemmas -/

/-- A ratio at most 1 never increases a non-negative amount. -/
theorem tierOf_le_self (amount : Int) (ratio : ℚ) (ha : 0 ≤ amount)
    (hr : ratio ≤ 1) : tierOf amount ratio ≤ amount := by
  have h : (amount : ℚ) * ratio ≤ (amount : ℚ) :=
    mul_le_of_le_one_right (by exact_mod_cast ha) hr
  calc tierOf amount ratio ≤ ⌊(amount : ℚ)⌋ := Int.floor_le_floor h
    _ = amount := Int.floor_intCast amount

/-- A ratio at least 1 never decreases a non-negative amount, even after
flooring. -/
theorem le_tierOf_self (amount : Int) (ratio : ℚ) (ha : 0 ≤ amount)
    (hr : 1 ≤ ratio) : amount ≤ tierOf amount ratio := by
  apply Int.le_floor.mpr
  calc ((amount : ℚ)) = (amount : ℚ) * 1 := (mul_one _).symm
    _ ≤ (amount : ℚ) * ratio :=
        mul_le_mul_of_nonneg_left hr (by exact_mod_cast ha)

/-- `tierOf` is the floor of the exact product: at most the exact value and
within one unit below it. -/
theorem tierOf_floor_bounds (amount : Int) (ratio : ℚ) :
    ((tierOf amount ratio : Int) : ℚ) ≤ (amount : ℚ) * ratio ∧
      (amount : ℚ) * ratio < ((tierOf amount ratio : Int) : ℚ) + 1 :=
  ⟨Int.floor_le _, Int.lt_floor_add_one _⟩

/-- When the exact product is itself an integer, `tierOf` returns it. -/
theorem tierOf_eq_of_cast (amount : Int) (ratio : ℚ) (n : Int)
    (h : (amount : ℚ) * ratio = (n : ℚ)) : tierOf amount ratio = n := by
  unfold tierOf
  rw [h, Int.floor_intCast]

/-- Inversion for a successful `computeFeeSchedule` call: the inputs were
valid and the schedule is the tier record. -/
theorem computeFeeSchedule_ok (obs : FeeObservation) (m : ℚ)
    (sched : FeeSchedule) (hok : computeFeeSchedule obs m = .ok sched) :
    0 ≤ obs.baseFee ∧ 0 ≤ obs.priorityFee ∧ 1 < m ∧
      sched = { slow := ⟨tierOf obs.baseFee (9 / 10), tierOf obs.priorityFee (9 / 10)⟩
                standard := ⟨obs.baseFee, obs.priorityFee⟩
                fast := ⟨tierOf obs.baseFee m, tierOf obs.priorityFee m⟩ } := by
  unfold computeFeeSchedule at hok
  split at hok
  · simp at hok
  · split at hok
    · simp at hok
    · rename_i hneg hmle
      push_neg at hneg
      push_neg at hmle
      exact ⟨hneg.1, hneg.2, hmle, (Except.ok.inj hok).symm⟩

/-- Inversion for a successful `computeEligibility` call. -/
theorem computeEligibility_ok (s : ActivitySnapshot) (t : Thresholds)
    (r : EligibilityResult) (hok : computeEligibility s t = .ok r) :
    0 ≤ s.transactionCount ∧ 0 ≤ s.deployedContractCount ∧ 0 ≤ s.balance ∧
      r = { hasMinimumActivity := decide (t.minTx ≤ s.transactionCount)
            hasDeployedContracts := decide (t.minContracts ≤ s.deployedContractCount)
            hasMinimumBalance := decide (t.minBalance ≤ s.balance)
            overallEligible := decide (t.minTx ≤ s.transactionCount)
              && decide (t.minContracts ≤ s.deployedContractCount)
              && decide (t.minBalance ≤ s.balance)
            activityScore :=
              min 1000 (s.deployedContractCount * 50
                + (if s.walletInitialized then 10 else 0) + 20) } := by
  unfold computeEligibility at hok
  split at hok
  · simp at hok
  · rename_i hneg
    push_neg at hneg
    exact ⟨hneg.1, hneg.2.1, hneg.2.2, (Except.ok.inj hok).symm⟩

/-- Concrete evaluation helper: a successful `computeFeeSchedule` call with
every tier product given by an exact tier equation. -/
theorem computeFeeSchedule_eval (obs : FeeObservation) (m : ℚ)
    (sb pb fb fp : Int)
    (hvalid : ¬(obs.baseFee < 0 ∨ obs.priorityFee < 0)) (hm : ¬(m ≤ 1))
    (h1 : tierOf obs.baseFee (9 / 10) = sb)
    (h2 : tierOf obs.priorityFee (9 / 10) = pb)
    (h3 : tierOf obs.baseFee m = fb) (h4 : tierOf obs.priorityFee m = fp) :
    computeFeeSchedule obs m =
      .ok ⟨⟨sb, pb⟩, ⟨obs.baseFee, obs.priorityFee⟩, ⟨fb, fp⟩⟩ := by
  unfold computeFeeSchedule
  rw [if_neg hvalid, if_neg hm, h1, h2, h3, h4]

/-- Concrete evaluation helper: a successful `computeEligibility` call with
each field given by an explicit equation. -/
theorem computeEligibility_eval (s : ActivitySnapshot) (t : Thresholds)
    (a b c : Bool) (score : Int)
    (hvalid : ¬(s.transactionCount < 0 ∨ s.deployedContractCount < 0 ∨
      s.balance < 0))
    (ha : decide (t.minTx ≤ s.transactionCount) = a)
    (hb : decide (t.minContracts ≤ s.deployedContractCount) = b)
    (hc : decide (t.minBalance ≤ s.balance) = c)
    (hscore : min 1000 (s.deployedContractCount * 50
      + (if s.walletInitialized then 10 else 0) + 20) = score) :
    computeEligibility s t = .ok ⟨a, b, c, a && b && c, score⟩ := by
  unfold computeEligibility
  rw [if_neg hvalid, ha, hb, hc, hscore]

/-! ## Claim theorems -/

/-- C7: `computeFeeSchedule` on `baseFee = 1_000_000_000` with the spec's
default multiplier 1.25 (and the absent priority fee defaulted to 0) returns
`slow = 900_000_000`, `standard = 1_000_000_000`, `fast = 1_250_000_000`. -/
theorem c7_concrete_billion :
    computeFeeSchedule ⟨1000000000, 0⟩ (5 / 4) =
      .ok ⟨⟨900000000, 0⟩, ⟨1000000000, 0⟩, ⟨1250000000, 0⟩⟩ := by
  have hs : tierOf 1000000000 (9 / 10) = 900000000 :=
    tierOf_eq_of_cast _ _ _ (by norm_num)
  have hf : tierOf 1000000000 (5 / 4) = 1250000000 :=
    tierOf_eq_of_cast _ _ _ (by norm_num)
  have h0s : tierOf 0 (9 / 10) = 0 :=
    tierOf_eq_of_cast _ _ _ (by norm_num)
  have h0f : tierOf 0 (5 / 4) = 0 :=
    tierOf_eq_of_cast _ _ _ (by norm_num)
  unfold computeFeeSchedule
  rw [if_neg (by norm_num), if_neg (by norm_num)]
  simp only [hs, hf, h0s, h0f]

/-- C10: the activity score of `BaseIntegration.calculateActivityScore`
includes an unconditional base of 20 for network-interaction capability, so
it is at least 20 for every contract count and wallet state. -/
theorem c10_score_at_least_twenty (contractsSize : Nat)
    (walletInitialized : Bool) :
    20 ≤ calculateActivityScore contractsSize walletInitialized := by
  unfold calculateActivityScore
  cases walletInitialized <;> simp

/-- C1: for every fee observation with `baseFee ≥ 0` and every
`fastMultiplier > 1`, a successful `computeFeeSchedule` returns tiers that
are monotonically non-decreasing, `slow ≤ standard ≤ fast`, both in the
`feeCap` components and in the `priorityCap` components. -/
theorem c1_feeSchedule_monotone (obs : FeeObservation) (m : ℚ)
    (hb : 0 ≤ obs.baseFee) (hm : 1 < m) (sched : FeeSchedule)
    (hok : computeFeeSchedule obs m = .ok sched) :
    sched.slow.feeCap ≤ sched.standard.feeCap ∧
      sched.standard.feeCap ≤ sched.fast.feeCap ∧
      sched.slow.priorityCap ≤ sched.standard.priorityCap ∧
      sched.standard.priorityCap ≤ sched.fast.priorityCap := by
  obtain ⟨hb0, hp0, hm1, rfl⟩ := computeFeeSchedule_ok obs m sched hok
  exact ⟨tierOf_le_self _ _ hb0 (by norm_num),
    le_tierOf_self _ _ hb0 (le_of_lt hm1),
    tierOf_le_self _ _ hp0 (by norm_num),
    le_tierOf_self _ _ hp0 (le_of_lt hm1)⟩

/-- Witness for C1: `baseFee = 1000`, `priorityFee = 100`, multiplier 2. -/
theorem c1_feeSchedule_monotone_witness :
    (900 : Int) ≤ 1000 ∧ (1000 : Int) ≤ 2000 ∧
      (90 : Int) ≤ 100 ∧ (100 : Int) ≤ 200 :=
  c1_feeSchedule_monotone ⟨1000, 100⟩ 2 (by decide) (by norm_num)
    ⟨⟨900, 90⟩, ⟨1000, 100⟩, ⟨2000, 200⟩⟩
    (computeFeeSchedule_eval ⟨1000, 100⟩ 2 900 90 2000 200 (by decide)
      (by norm_num) (tierOf_eq_of_cast _ _ _ (by norm_num))
      (tierOf_eq_of_cast _ _ _ (by norm_num))
      (tierOf_eq_of_cast _ _ _ (by norm_num))
      (tierOf_eq_of_cast _ _ _ (by norm_num)))

/-- C2: the activity score of a successful `computeEligibility` call equals
`min 1000 (deployedContractCount * 50 + (walletInitialized ? 10 : 0) + 20)`,
coincides with the source `calculateActivityScore`, and lies in `[0, 1000]`. -/
theorem c2_activityScore_formula (s : ActivitySnapshot) (t : Thresholds)
    (r : EligibilityResult) (hok : computeEligibility s t = .ok r) :
    r.activityScore =
        min 1000 (s.deployedContractCount * 50
          + (if s.walletInitialized then 10 else 0) + 20) ∧
      r.activityScore =
        (calculateActivityScore s.deployedContractCount.toNat
          s.walletInitialized : Int) ∧
      0 ≤ r.activityScore ∧ r.activityScore ≤ 1000 := by
  obtain ⟨-, hd, -, rfl⟩ := computeEligibility_ok s t r hok
  refine ⟨rfl, ?_, ?_, ?_⟩
  · simp only [calculateActivityScore]
    cases s.walletInitialized <;> simp <;> omega
  · cases s.walletInitialized <;> simp <;> omega
  · cases s.walletInitialized <;> simp <;> omega

/-- Witness for C2: 12 transactions, 3 contracts, balance 1, wallet on. -/
theorem c2_activityScore_formula_witness :
    (180 : Int) =
        min 1000 ((3 : Int) * 50 + (if true then 10 else 0) + 20) ∧
      (180 : Int) = (calculateActivityScore (3 : Int).toNat true : Int) ∧
      (0 : Int) ≤ 180 ∧ (180 : Int) ≤ 1000 :=
  c2_activityScore_formula ⟨12, 3, 1, true⟩ defaultThresholds
    ⟨true, true, true, true, 180⟩
    (computeEligibility_eval ⟨12, 3, 1, true⟩ defaultThresholds
      true true true 180 (by decide) (by decide) (by decide)
      (by norm_num [defaultThresholds]) (by decide))

/-- C3: a successful `computeEligibility` call returns
`hasMinimumActivity = (transactionCount ≥ minTx)`,
`hasDeployedContracts = (deployedContractCount ≥ minContracts)`,
`hasMinimumBalance = (balance ≥ minBalance)` compared in one unit domain,
and `overallEligible` the conjunction of the three. -/
theorem c3_eligibility_predicates (s : ActivitySnapshot) (t : Thresholds)
    (r : EligibilityResult) (hok : computeEligibility s t = .ok r) :
    (r.hasMinimumActivity = true ↔ t.minTx ≤ s.transactionCount) ∧
      (r.hasDeployedContracts = true ↔
        t.minContracts ≤ s.deployedContractCount) ∧
      (r.hasMinimumBalance = true ↔ t.minBalance ≤ s.balance) ∧
      r.overallEligible =
        (r.hasMinimumActivity && r.hasDeployedContracts
          && r.hasMinimumBalance) := by
  obtain ⟨-, -, -, rfl⟩ := computeEligibility_ok s t r hok
  refine ⟨?_, ?_, ?_, rfl⟩ <;> simp

/-- Witness for C3 at the default thresholds: 12 transactions, 3 contracts,
balance 1. -/
theorem c3_eligibility_predicates_witness :
    (true = true ↔ (10 : Int) ≤ 12) ∧
      (true = true ↔ (1 : Int) ≤ 3) ∧
      (true = true ↔ (1 : ℚ) / 100 ≤ 1) ∧
      true = (true && true && true) :=
  c3_eligibility_predicates ⟨12, 3, 1, true⟩ defaultThresholds
    ⟨true, true, true, true, 180⟩
    (computeEligibility_eval ⟨12, 3, 1, true⟩ defaultThresholds
      true true true 180 (by decide) (by decide) (by decide)
      (by norm_num [defaultThresholds]) (by decide))

/-- C4: with `deployedContractCount ≥ 20` and `walletInitialized = true`, a
successful `computeEligibility` call returns the saturated activity score
1000. -/
theorem c4_activityScore_saturation (s : ActivitySnapshot) (t : Thresholds)
    (r : EligibilityResult) (h20 : 20 ≤ s.deployedContractCount)
    (hw : s.walletInitialized = true)
    (hok : computeEligibility s t = .ok r) :
    r.activityScore = 1000 := by
  obtain ⟨-, -, -, rfl⟩ := computeEligibility_ok s t r hok
  simp only [hw, if_true]
  omega

/-- Witness for C4: 25 contracts with an initialized wallet saturate. -/
theorem c4_activityScore_saturation_witness : (1000 : Int) = 1000 :=
  c4_activityScore_saturation ⟨0, 25, 0, true⟩ defaultThresholds
    ⟨false, true, false, false, 1000⟩ (by decide) rfl
    (computeEligibility_eval ⟨0, 25, 0, true⟩ defaultThresholds
      false true false 1000 (by decide) (by decide) (by decide)
      (by norm_num [defaultThresholds]) (by decide))

/-- C5: a negative `baseFee` makes `computeFeeSchedule` fail with
`InvalidInput`, a negative snapshot field makes `computeEligibility` fail
with `InvalidInput`, and `InvalidInput` is the only failure kind either
operation can produce. -/
theorem c5_invalidInput_only (obs : FeeObservation) (m : ℚ)
    (s : ActivitySnapshot) (t : Thresholds) :
    (obs.baseFee < 0 → computeFeeSchedule obs m = .error .invalidInput) ∧
      (s.transactionCount < 0 ∨ s.deployedContractCount < 0 ∨ s.balance < 0 →
        computeEligibility s t = .error .invalidInput) ∧
      (∀ e : FeeError, computeFeeSchedule obs m = .error e →
        e = .invalidInput) ∧
      (∀ e : FeeError, computeEligibility s t = .error e →
        e = .invalidInput) := by
  refine ⟨?_, ?_, ?_, ?_⟩
  · intro h
    unfold computeFeeSchedule
    rw [if_pos (Or.inl h)]
  · intro h
    unfold computeEligibility
    rw [if_pos h]
  · intro e _
    cases e
    rfl
  · intro e _
    cases e
    rfl

/-- Witness for C5: `baseFee = -1` and `transactionCount = -1` are refused. -/
theorem c5_invalidInput_only_witness :
    computeFeeSchedule ⟨-1, 0⟩ 2 = .error .invalidInput ∧
      computeEligibility ⟨-1, 0, 0, false⟩ defaultThresholds =
        .error .invalidInput :=
  ⟨(c5_invalidInput_only ⟨-1, 0⟩ 2 ⟨-1, 0, 0, false⟩ defaultThresholds).1
      (by decide),
    (c5_invalidInput_only ⟨-1, 0⟩ 2 ⟨-1, 0, 0, false⟩
        defaultThresholds).2.1 (Or.inl (by decide))⟩

/-- C6: `computeFeeSchedule` and `computeEligibility` are deterministic pure
functions: run against an explicit world, the result does not depend on the
world and the world comes back unchanged (no hidden state, no side effects,
no I/O), so two calls on identical inputs yield identical outputs. -/
theorem c6_deterministic_pure (obs : FeeObservation) (m : ℚ)
    (s : ActivitySnapshot) (t : Thresholds) (w v : World) :
    (computeFeeScheduleRun obs m w).1 = (computeFeeScheduleRun obs m v).1 ∧
      (computeFeeScheduleRun obs m w).2 = w ∧
      (computeEligibilityRun s t w).1 = (computeEligibilityRun s t v).1 ∧
      (computeEligibilityRun s t w).2 = w :=
  ⟨rfl, rfl, rfl, rfl⟩

/-- C8: for non-negative fees and a multiplier greater than 1, the tier
arithmetic of `computeFeeSchedule` is exact rational multiplication followed
by truncation toward zero: each computed tier is at most the exact product
(never rounded up) and within one unit below it, and the standard tier is
the observed fee unchanged. -/
theorem c8_truncation_toward_zero (obs : FeeObservation) (m : ℚ)
    (hb : 0 ≤ obs.baseFee) (hp : 0 ≤ obs.priorityFee) (hm : 1 < m)
    (sched : FeeSchedule) (hok : computeFeeSchedule obs m = .ok sched) :
    ((sched.slow.feeCap : ℚ) ≤ (obs.baseFee : ℚ) * (9 / 10) ∧
        (obs.baseFee : ℚ) * (9 / 10) < (sched.slow.feeCap : ℚ) + 1) ∧
      ((sched.fast.feeCap : ℚ) ≤ (obs.baseFee : ℚ) * m ∧
        (obs.baseFee : ℚ) * m < (sched.fast.feeCap : ℚ) + 1) ∧
      ((sched.slow.priorityCap : ℚ) ≤ (obs.priorityFee : ℚ) * (9 / 10) ∧
        (obs.priorityFee : ℚ) * (9 / 10) < (sched.slow.priorityCap : ℚ) + 1) ∧
      ((sched.fast.priorityCap : ℚ) ≤ (obs.priorityFee : ℚ) * m ∧
        (obs.priorityFee : ℚ) * m < (sched.fast.priorityCap : ℚ) + 1) ∧
      sched.standard.feeCap = obs.baseFee ∧
      sched.standard.priorityCap = obs.priorityFee := by
  obtain ⟨-, -, -, rfl⟩ := computeFeeSchedule_ok obs m sched hok
  exact ⟨tierOf_floor_bounds _ _, tierOf_floor_bounds _ _,
    tierOf_floor_bounds _ _, tierOf_floor_bounds _ _, rfl, rfl⟩

/-- Witness for C8: `baseFee = 2000`, `priorityFee = 40`, multiplier 3/2. -/
theorem c8_truncation_toward_zero_witness :
    (((1800 : Int) : ℚ) ≤ ((2000 : Int) : ℚ) * (9 / 10) ∧
        ((2000 : Int) : ℚ) * (9 / 10) < ((1800 : Int) : ℚ) + 1) ∧
      (((3000 : Int) : ℚ) ≤ ((2000 : Int) : ℚ) * (3 / 2) ∧
        ((2000 : Int) : ℚ) * (3 / 2) < ((3000 : Int) : ℚ) + 1) ∧
      (((36 : Int) : ℚ) ≤ ((40 : Int) : ℚ) * (9 / 10) ∧
        ((40 : Int) : ℚ) * (9 / 10) < ((36 : Int) : ℚ) + 1) ∧
      (((60 : Int) : ℚ) ≤ ((40 : Int) : ℚ) * (3 / 2) ∧
        ((40 : Int) : ℚ) * (3 / 2) < ((60 : Int) : ℚ) + 1) ∧
      (2000 : Int) = 2000 ∧ (40 : Int) = 40 :=
  c8_truncation_toward_zero ⟨2000, 40⟩ (3 / 2) (by decide) (by decide)
    (by norm_num) ⟨⟨1800, 36⟩, ⟨2000, 40⟩, ⟨3000, 60⟩⟩
    (computeFeeSchedule_eval ⟨2000, 40⟩ (3 / 2) 1800 36 3000 60 (by decide)
      (by norm_num) (tierOf_eq_of_cast _ _ _ (by norm_num))
      (tierOf_eq_of_cast _ _ _ (by norm_num))
      (tierOf_eq_of_cast _ _ _ (by norm_num))
      (tierOf_eq_of_cast _ _ _ (by norm_num)))

/-- C9: the placeholder `getContractsDeployed` returns an integer in
`[1, 10]` for every random draw `r ∈ [0, 1)`; consequently the source
eligibility check's `hasDeployedContracts` predicate is true for every
input address. -/
theorem c9_contractsDeployed_range (r : ℚ) (txCount : Nat) (balance : ℚ)
    (h0 : 0 ≤ r) (h1 : r < 1) :
    1 ≤ getContractsDeployed r ∧ getContractsDeployed r ≤ 10 ∧
      (checkRewardsEligibility
        ⟨txCount, getContractsDeployed r, balance⟩).hasDeployedContracts
        = true := by
  have hlt : Int.floor (r * 10) < 10 := by
    apply Int.floor_lt.mpr
    push_cast
    have h10 : r * 10 < 1 * 10 := mul_lt_mul_of_pos_right h1 (by norm_num)
    linarith
  have hge : (0 : Int) ≤ Int.floor (r * 10) := by
    apply Int.floor_nonneg.mpr
    positivity
  refine ⟨by unfold getContractsDeployed; omega,
    by unfold getContractsDeployed; omega, ?_⟩
  simp [checkRewardsEligibility, getContractsDeployed]

/-- Witness for C9: the draw `r = 1/2` yields 6 deployed contracts. -/
theorem c9_contractsDeployed_range_witness :
    1 ≤ getContractsDeployed (1 / 2) ∧ getContractsDeployed (1 / 2) ≤ 10 ∧
      (checkRewardsEligibility
        ⟨0, getContractsDeployed (1 / 2), 0⟩).hasDeployedContracts = true :=
  c9_contractsDeployed_range (1 / 2) 0 0 (by norm_num) (by norm_num)
